import Mathlib

/-!
Shallow embedding of `src/eisenhower_app.py` (Eisenhower Matrix Task Tracker).

The core consists of:
* `TASK_TIME` — the static task catalog (minutes per unit of each task);
* `priority_factor` and `calculate_people_needed` — the staff allocator;
* `priority_formula` — the priority score computed inside `update_task`;
* `update_task`, `load_tasks`, `reset_tasks` — the state machine over the
  sheet-backed task store.

The external sheet is modelled as a list of logical records (`List Record`);
`sheet.update_cell(rowIndex, colIndex, value)` calls are recorded as
`SheetWrite` values (1-based sheet coordinates, row 1 being the header, so
logical row `i` is sheet row `i + 2`) and applied to the store by
`applyWrites`. Python ints are modelled as `ℤ`; Python float arithmetic on
the small decimal constants involved (1.5, 2, 0.5, divisions by 10 and 420)
is modelled exactly over `ℚ`.
-/

/-- A cell of the sheet: either a numeric value or a non-numeric string.
`gspread.get_all_records` numericises numeric-looking cells on read, so a
string cell here stands for genuinely non-numeric content, which
`pd.to_numeric(..., errors="coerce")` maps to NaN. -/
inductive Cell where
  | num (q : ℚ)
  | str (s : String)
deriving DecidableEq

/-- Whether a cell holds a numeric value. -/
def Cell.isNum : Cell → Bool
  | .num _ => true
  | .str _ => false

/-- Python comparison `row["Task"] == task` of a cell with a string:
a number never equals a string. -/
def Cell.eqStr : Cell → String → Bool
  | .num _, _ => false
  | .str s, t => s == t

/-- One logical row of the sheet, columns
{Task=1, Urgency=2, Importance=3, DaysUntilDue=4, Priority=5, Quantity=6,
PeopleNeeded=7}. -/
structure Record where
  task : Cell
  urgency : Cell
  importance : Cell
  daysUntilDue : Cell
  priority : Cell
  quantity : Cell
  peopleNeeded : Cell
deriving DecidableEq

/-- `TASK_TIME`: estimated time per task, in minutes (the static catalog). -/
def TASK_TIME : List (String × ℤ) :=
  [("Putaway 3002", 20),
   ("Putaway 3043", 15),
   ("Unload Shuttles", 20),
   ("Unload 3002 Inbound", 20),
   ("Unload 3043 Inbound", 20),
   ("Load 3043 Outbound", 20),
   ("Load 3002 Outbound", 20),
   ("Load LTL Outbound", 20),
   ("LTL Picks Same Day", 15),
   ("LTL Picks Next Day", 15),
   ("FTL Picks Same Day", 25),
   ("FTL Picks Next Day", 25),
   ("Export Live Loads Same Day", 25),
   ("Export Live Loads Next Day", 25),
   ("Export Drop Same Day", 25),
   ("Export Drop Next Day", 25)]

/-- `WORK_MINUTES_PER_WORKER = 420` (7 hours per shift). -/
def WORK_MINUTES_PER_WORKER : ℤ := 420

/-- `priority_factor = (urgency * 1.5 + importance * 2) / 10`
(line 49 of the source). -/
def priority_factor (urgency importance : ℤ) : ℚ :=
  ((urgency : ℚ) * (3 / 2) + (importance : ℚ) * 2) / 10

/-- `calculate_people_needed(task, quantity, urgency, importance)`
(lines 41–56 of the source): unknown task ⇒ 1; otherwise
`max(1, ceil((quantity * time_per_task / 420) * priority_factor))`. -/
def calculate_people_needed (task : String) (quantity urgency importance : ℤ) : ℤ :=
  match TASK_TIME.lookup task with
  | none => 1
  | some time_per_task =>
      let total_time_needed : ℤ := quantity * time_per_task
      max 1 ⌈((total_time_needed : ℚ) / (WORK_MINUTES_PER_WORKER : ℚ)) *
        priority_factor urgency importance⌉

/-- The priority score computed on line 64 of the source:
`urgency * 1.5 + importance * 2 - days_until_due * 0.5`. -/
def priority_formula (urgency importance days_until_due : ℤ) : ℚ :=
  (urgency : ℚ) * (3 / 2) + (importance : ℚ) * 2 - (days_until_due : ℚ) * (1 / 2)

/-- One `sheet.update_cell(rowIndex, colIndex, value)` call, in 1-based sheet
coordinates (row 1 is the header row). -/
structure SheetWrite where
  rowIndex : ℕ
  colIndex : ℕ
  value : Cell
deriving DecidableEq

/-- Overwrite column `col` of a record (positional column convention
{Task=1, Urgency=2, Importance=3, DaysUntilDue=4, Priority=5, Quantity=6,
PeopleNeeded=7}); other column indices leave the record unchanged. -/
def Record.setCol (r : Record) (col : ℕ) (v : Cell) : Record :=
  if col = 1 then { r with task := v }
  else if col = 2 then { r with urgency := v }
  else if col = 3 then { r with importance := v }
  else if col = 4 then { r with daysUntilDue := v }
  else if col = 5 then { r with priority := v }
  else if col = 6 then { r with quantity := v }
  else if col = 7 then { r with peopleNeeded := v }
  else r

/-- Replace the record at logical index `j` (0-based) by its column-`c`
overwrite; out-of-range indices leave the sheet unchanged. -/
def setAt : List Record → ℕ → ℕ → Cell → List Record
  | [], _, _, _ => []
  | r :: rs, 0, c, v => r.setCol c v :: rs
  | r :: rs, j + 1, c, v => r :: setAt rs j c v

/-- Semantics of `sheet.update_cell(rowIndex, colIndex, value)`: sheet row
`rowIndex` is logical row `rowIndex - 2` (row 1 is the header). -/
def update_cell (sheet : List Record) (rowIndex colIndex : ℕ) (value : Cell) :
    List Record :=
  setAt sheet (rowIndex - 2) colIndex value

/-- Apply a trace of `update_cell` calls to the store, in order. -/
def applyWrites : List Record → List SheetWrite → List Record
  | s, [] => s
  | s, w :: ws => applyWrites (update_cell s w.rowIndex w.colIndex w.value) ws

/-- Index of the first row whose `Task` cell equals `task`, mirroring the
`for i, row in enumerate(existing_tasks): if row["Task"] == task` scan of
`update_task` (first match wins). -/
def findTaskIdx : List Record → String → Option ℕ
  | [], _ => none
  | r :: rs, t => if r.task.eqStr t then some 0 else (findTaskIdx rs t).map (· + 1)

/-- `update_task(task, urgency, importance, days_until_due, quantity)`
(lines 59–80 of the source): scans for the first row whose `Task` equals
`task`; if found, recomputes priority and staffing and emits the six
`update_cell` writes of lines 70–75 in order, returning `True`; otherwise
returns `False` with no writes. -/
def update_task (sheet : List Record) (task : String)
    (urgency importance days_until_due quantity : ℤ) : Bool × List SheetWrite :=
  match findTaskIdx sheet task with
  | none => (false, [])
  | some i =>
      let priority : ℚ := priority_formula urgency importance days_until_due
      let people_needed : ℤ := calculate_people_needed task quantity urgency importance
      (true,
       [⟨i + 2, 2, Cell.num (urgency : ℚ)⟩,
        ⟨i + 2, 3, Cell.num (importance : ℚ)⟩,
        ⟨i + 2, 4, Cell.num (days_until_due : ℚ)⟩,
        ⟨i + 2, 5, Cell.num priority⟩,
        ⟨i + 2, 6, Cell.num (quantity : ℚ)⟩,
        ⟨i + 2, 7, Cell.num (people_needed : ℚ)⟩])

/-- `pd.to_numeric(x, errors="coerce")` on one cell: numeric cells pass
through, non-numeric cells become NaN (`none`). -/
def toNumeric : Cell → Option ℚ
  | .num q => some q
  | .str _ => none

/-- `pd.to_numeric(..., errors="coerce").fillna(default)` on one cell. -/
def coerceFill (c : Cell) (default : ℚ) : ℚ :=
  (toNumeric c).getD default

/-- `load_tasks()` (lines 83–97 of the source), restricted to the successful
path: the `Priority`, `Quantity`, `People Needed` and `Days Until Due`
columns are coerced to numbers with defaults 0, 0, 1, 0 respectively; the
`Task`, `Urgency` and `Importance` columns are returned as read. -/
def load_tasks (sheet : List Record) : List Record :=
  sheet.map fun r =>
    { r with
      priority := Cell.num (coerceFill r.priority 0),
      quantity := Cell.num (coerceFill r.quantity 0),
      peopleNeeded := Cell.num (coerceFill r.peopleNeeded 1),
      daysUntilDue := Cell.num (coerceFill r.daysUntilDue 0) }

/-- The six `update_cell` writes that `reset_tasks` issues for logical row
`i` (lines 105–110 of the source). -/
def reset_row_writes (i : ℕ) : List SheetWrite :=
  [⟨i + 2, 2, Cell.num 5⟩,
   ⟨i + 2, 3, Cell.num 5⟩,
   ⟨i + 2, 4, Cell.num 0⟩,
   ⟨i + 2, 5, Cell.num 0⟩,
   ⟨i + 2, 6, Cell.num 0⟩,
   ⟨i + 2, 7, Cell.num 1⟩]

/-- `reset_tasks()` (lines 100–112 of the source): for every row of the
store, in order, issue the six default-overwrite cell writes. -/
def reset_tasks (sheet : List Record) : List SheetWrite :=
  ((List.range sheet.length).map reset_row_writes).flatten

/-- A record after `reset_tasks` has run over it: all fields at their
defaults, the task name untouched. -/
def resetRecord (r : Record) : Record :=
  { task := r.task, urgency := Cell.num 5, importance := Cell.num 5,
    daysUntilDue := Cell.num 0, priority := Cell.num 0,
    quantity := Cell.num 0, peopleNeeded := Cell.num 1 }

/-! ### Concrete fixtures used by the witnesses -/

/-- A concrete stored row for the catalogued task "Putaway 3002". -/
def sampleRow : Record :=
  { task := Cell.str "Putaway 3002", urgency := Cell.num 3,
    importance := Cell.num 7, daysUntilDue := Cell.num 2,
    priority := Cell.num (25 / 2), quantity := Cell.num 4,
    peopleNeeded := Cell.num 2 }

/-- A concrete one-row store. -/
def sampleSheet : List Record := [sampleRow]

/-- A stored row whose numeric columns all hold non-numeric strings. -/
def badRow : Record :=
  { task := Cell.str "Putaway 3002", urgency := Cell.str "HIGH",
    importance := Cell.str "LOW", daysUntilDue := Cell.str "soon",
    priority := Cell.str "n/a", quantity := Cell.str "many",
    peopleNeeded := Cell.str "few" }

/-! ### Helper lemmas -/

theorem setAt_getElem? (s : List Record) (j c : ℕ) (v : Cell) (k : ℕ) :
    (setAt s j c v)[k]? =
      if k = j then s[k]?.map (fun r => r.setCol c v) else s[k]? := by
  induction s generalizing j k with
  | nil => simp [setAt]
  | cons r rs ih =>
      cases j with
      | zero =>
          cases k with
          | zero => simp [setAt]
          | succ k => simp [setAt]
      | succ j =>
          cases k with
          | zero => simp [setAt]
          | succ k => simpa [setAt] using ih j k

theorem applyWrites_append (s : List Record) (l1 l2 : List SheetWrite) :
    applyWrites s (l1 ++ l2) = applyWrites (applyWrites s l1) l2 := by
  induction l1 generalizing s with
  | nil => rfl
  | cons w ws ih => simp [applyWrites, ih]

theorem resetRecord_comp : resetRecord ∘ resetRecord = resetRecord :=
  funext fun _ => rfl

theorem applyWrites_reset_row_getElem? (s : List Record) (i k : ℕ) :
    (applyWrites s (reset_row_writes i))[k]? =
      if k = i then s[k]?.map resetRecord else s[k]? := by
  simp only [reset_row_writes, applyWrites, update_cell, Nat.add_sub_cancel,
    setAt_getElem?]
  by_cases h : k = i
  · simp only [h, if_pos rfl, Option.map_map]
    cases s[i]? <;> rfl
  · simp [h]

theorem applyWrites_reset_blocks_getElem? (js : List ℕ) (s : List Record) (k : ℕ) :
    (applyWrites s ((js.map reset_row_writes).flatten))[k]? =
      if k ∈ js then s[k]?.map resetRecord else s[k]? := by
  induction js generalizing s with
  | nil => simp [applyWrites]
  | cons j js ih =>
      rw [List.map_cons, List.flatten_cons, applyWrites_append, ih,
        applyWrites_reset_row_getElem?]
      by_cases hj : k = j <;> by_cases hm : k ∈ js <;>
        simp [hj, hm, Option.map_map, resetRecord_comp]

theorem findTaskIdx_eq_some (s : List Record) (t : String) (i : ℕ) (r : Record)
    (hr : s[i]? = some r) (hm : r.task.eqStr t = true)
    (hfirst : ∀ j, j < i → ∀ r', s[j]? = some r' → r'.task.eqStr t = false) :
    findTaskIdx s t = some i := by
  induction s generalizing i with
  | nil => simp at hr
  | cons r0 rs ih =>
      cases i with
      | zero =>
          simp only [List.getElem?_cons_zero, Option.some.injEq] at hr
          subst hr
          simp [findTaskIdx, hm]
      | succ i =>
          have h0 : r0.task.eqStr t = false :=
            hfirst 0 (Nat.succ_pos i) r0 (by simp)
          have hrec : findTaskIdx rs t = some i :=
            ih i (by simpa using hr)
              (fun j hj r' h' =>
                hfirst (j + 1) (Nat.succ_lt_succ hj) r' (by simpa using h'))
          simp [findTaskIdx, h0, hrec]

theorem findTaskIdx_eq_none (s : List Record) (t : String)
    (h : ∀ r ∈ s, r.task.eqStr t = false) : findTaskIdx s t = none := by
  induction s with
  | nil => rfl
  | cons r0 rs ih =>
      have h0 := h r0 (List.mem_cons_self r0 rs)
      have hrec := ih fun r hr => h r (List.mem_cons_of_mem _ hr)
      simp [findTaskIdx, h0, hrec]

theorem update_task_eq_of_none (sheet : List Record) (t : String)
    (u imp d q : ℤ) (h : findTaskIdx sheet t = none) :
    update_task sheet t u imp d q = (false, []) := by
  unfold update_task
  rw [h]

theorem update_task_eq_of_some (sheet : List Record) (t : String)
    (u imp d q : ℤ) (j : ℕ) (h : findTaskIdx sheet t = some j) :
    update_task sheet t u imp d q =
      (true,
       [⟨j + 2, 2, Cell.num (u : ℚ)⟩,
        ⟨j + 2, 3, Cell.num (imp : ℚ)⟩,
        ⟨j + 2, 4, Cell.num (d : ℚ)⟩,
        ⟨j + 2, 5, Cell.num (priority_formula u imp d)⟩,
        ⟨j + 2, 6, Cell.num (q : ℚ)⟩,
        ⟨j + 2, 7, Cell.num ((calculate_people_needed t q u imp : ℤ) : ℚ)⟩]) := by
  unfold update_task
  rw [h]

theorem setCol_task (r : Record) (c : ℕ) (v : Cell) (hc : c ≠ 1) :
    (r.setCol c v).task = r.task := by
  simp only [Record.setCol, if_neg hc]
  split_ifs <;> rfl

theorem setAt_map_task (s : List Record) (j c : ℕ) (v : Cell) (hc : c ≠ 1) :
    (setAt s j c v).map Record.task = s.map Record.task := by
  induction s generalizing j with
  | nil => rfl
  | cons r rs ih =>
      cases j with
      | zero => simp [setAt, setCol_task r c v hc]
      | succ j => simp [setAt, ih]

theorem applyWrites_map_task (s : List Record) (ws : List SheetWrite)
    (h : ∀ w ∈ ws, w.colIndex ≠ 1) :
    (applyWrites s ws).map Record.task = s.map Record.task := by
  induction ws generalizing s with
  | nil => rfl
  | cons w ws ih =>
      rw [applyWrites, ih _ fun w' hw => h w' (List.mem_cons_of_mem _ hw),
        update_cell, setAt_map_task _ _ _ _ (h w (List.mem_cons_self w ws))]

theorem update_trace_cols (sheet : List Record) (t : String) (u imp d q : ℤ) :
    ∀ w ∈ (update_task sheet t u imp d q).2, w.colIndex ≠ 1 := by
  cases h : findTaskIdx sheet t with
  | none => rw [update_task_eq_of_none sheet t u imp d q h]; simp
  | some j =>
      rw [update_task_eq_of_some sheet t u imp d q j h]
      intro w hw
      simp only [List.mem_cons, List.not_mem_nil, or_false] at hw
      rcases hw with rfl | rfl | rfl | rfl | rfl | rfl <;> simp

theorem reset_trace_cols (sheet : List Record) :
    ∀ w ∈ reset_tasks sheet, w.colIndex ≠ 1 := by
  intro w hw
  unfold reset_tasks at hw
  rw [List.mem_flatten] at hw
  obtain ⟨l, hl, hwl⟩ := hw
  rw [List.mem_map] at hl
  obtain ⟨i, _, rfl⟩ := hl
  simp only [reset_row_writes, List.mem_cons, List.not_mem_nil, or_false] at hwl
  rcases hwl with rfl | rfl | rfl | rfl | rfl | rfl <;> simp

/-! ### Claim theorems -/

/-- C1: for every task name present in the catalog,
`calculate_people_needed(task, quantity, urgency, importance)` returns
`max(1, ceil((quantity * minutesPerUnit / 420) * (urgency * 1.5 + importance * 2) / 10))`;
in particular, for task "Putaway 3002" (20 min/unit) with quantity 10,
urgency 8 and importance 9 it returns 2. -/
theorem calculate_people_needed_formula :
    (∀ (t : String) (m : ℤ), TASK_TIME.lookup t = some m →
      ∀ q u imp : ℤ,
        calculate_people_needed t q u imp =
          max 1 ⌈(((q * m : ℤ) : ℚ) / 420) *
            (((u : ℚ) * (3 / 2) + (imp : ℚ) * 2) / 10)⌉)
    ∧ calculate_people_needed "Putaway 3002" 10 8 9 = 2 := by
  constructor
  · intro t m hm q u imp
    unfold calculate_people_needed
    rw [hm]
    show max 1 ⌈(((q * m : ℤ) : ℚ) / ((WORK_MINUTES_PER_WORKER : ℤ) : ℚ)) *
      priority_factor u imp⌉ = _
    norm_num [priority_factor, WORK_MINUTES_PER_WORKER]
  · norm_num [calculate_people_needed, TASK_TIME, WORK_MINUTES_PER_WORKER,
      priority_factor, List.lookup, Int.ceil_eq_iff]

/-- C1 witness: instantiation at task "Putaway 3002" (20 min/unit),
quantity 10, urgency 8, importance 9. -/
theorem calculate_people_needed_formula_witness :
    TASK_TIME.lookup "Putaway 3002" = some 20 ∧
    calculate_people_needed "Putaway 3002" 10 8 9 =
      max 1 ⌈(((10 * 20 : ℤ) : ℚ) / 420) *
        ((((8 : ℤ) : ℚ) * (3 / 2) + ((9 : ℤ) : ℚ) * 2) / 10)⌉ :=
  ⟨by rfl, calculate_people_needed_formula.1 "Putaway 3002" 20 (by rfl) 10 8 9⟩

/-- C3: for every task name (in the catalog or not), every quantity ≥ 0 and
all urgency and importance values, `calculate_people_needed` returns an
integer that is at least 1. -/
theorem calculate_people_needed_ge_one (t : String) (q u imp : ℤ)
    (_hq : 0 ≤ q) : 1 ≤ calculate_people_needed t q u imp := by
  unfold calculate_people_needed
  cases h : TASK_TIME.lookup t with
  | none => exact le_refl 1
  | some m => exact le_max_left 1 _

/-- C3 witness: instantiation at task "Putaway 3002", quantity 5,
urgency 5, importance 5. -/
theorem calculate_people_needed_ge_one_witness :
    (0 : ℤ) ≤ 5 ∧ 1 ≤ calculate_people_needed "Putaway 3002" 5 5 5 :=
  ⟨by decide, calculate_people_needed_ge_one "Putaway 3002" 5 5 5 (by decide)⟩

/-- C4: for every task name not present in the catalog,
`calculate_people_needed` returns exactly 1, regardless of quantity,
urgency and importance. -/
theorem calculate_people_needed_unknown (t : String)
    (h : TASK_TIME.lookup t = none) (q u imp : ℤ) :
    calculate_people_needed t q u imp = 1 := by
  unfold calculate_people_needed
  rw [h]

/-- C4 witness: instantiation at the uncatalogued task "Sweep Floors" with
a large quantity and maximal urgency and importance. -/
theorem calculate_people_needed_unknown_witness :
    TASK_TIME.lookup "Sweep Floors" = none ∧
    calculate_people_needed "Sweep Floors" 1000000 10 10 = 1 :=
  ⟨by rfl, calculate_people_needed_unknown "Sweep Floors" (by rfl) 1000000 10 10⟩

/-- C9 counterexample: at urgency 10 and importance 10 — both inside
[1,10] — the priority factor is 3.5, which exceeds the claimed upper
bound 3. -/
theorem priority_factor_exceeds_three :
    priority_factor 10 10 = 7 / 2 ∧ ¬ priority_factor 10 10 ≤ 3 := by
  norm_num [priority_factor]

/-- C9 (amended): for urgency and importance in [1,10], the priority
factor `(urgency * 1.5 + importance * 2) / 10` satisfies
`0 ≤ priorityFactor ≤ 3.5` (the bound 3.5 is attained at 10/10, so the
claimed upper bound 3 is too small). -/
theorem priority_factor_bounds (u imp : ℤ) (h1 : 1 ≤ u) (h2 : u ≤ 10)
    (h3 : 1 ≤ imp) (h4 : imp ≤ 10) :
    0 ≤ priority_factor u imp ∧ priority_factor u imp ≤ 7 / 2 := by
  have hu1 : (1 : ℚ) ≤ (u : ℚ) := by exact_mod_cast h1
  have hu2 : (u : ℚ) ≤ 10 := by exact_mod_cast h2
  have hi1 : (1 : ℚ) ≤ (imp : ℚ) := by exact_mod_cast h3
  have hi2 : (imp : ℚ) ≤ 10 := by exact_mod_cast h4
  unfold priority_factor
  constructor
  · linarith
  · linarith

/-- C9 witness: instantiation of the amended bounds at urgency 10,
importance 10. -/
theorem priority_factor_bounds_witness :
    (1 : ℤ) ≤ 10 ∧ (10 : ℤ) ≤ 10 ∧
    (0 ≤ priority_factor 10 10 ∧ priority_factor 10 10 ≤ 7 / 2) :=
  ⟨by decide, by decide,
   priority_factor_bounds 10 10 (by decide) (by decide) (by decide) (by decide)⟩

/-- C2: the priority score that Update computes and writes (to column 5)
equals `urgency * 1.5 + importance * 2 - daysUntilDue * 0.5` for all inputs,
with no clamping; the score can be negative when daysUntilDue is large
relative to urgency and importance (e.g. urgency 1, importance 1,
daysUntilDue 10). -/
theorem update_priority_formula :
    (∀ (sheet : List Record) (t : String) (u imp d q : ℤ) (j : ℕ),
      findTaskIdx sheet t = some j →
      ((update_task sheet t u imp d q).2)[3]? =
        some ⟨j + 2, 5,
          Cell.num ((u : ℚ) * (3 / 2) + (imp : ℚ) * 2 - (d : ℚ) * (1 / 2))⟩)
    ∧ priority_formula 1 1 10 < 0 := by
  constructor
  · intro sheet t u imp d q j h
    rw [update_task_eq_of_some sheet t u imp d q j h]
    rfl
  · norm_num [priority_formula]

/-- C2 witness: instantiation at the one-row sample store with urgency 8,
importance 9, daysUntilDue 1, quantity 10. -/
theorem update_priority_formula_witness :
    findTaskIdx sampleSheet "Putaway 3002" = some 0 ∧
    ((update_task sampleSheet "Putaway 3002" 8 9 1 10).2)[3]? =
      some ⟨2, 5,
        Cell.num (((8 : ℤ) : ℚ) * (3 / 2) + ((9 : ℤ) : ℚ) * 2 -
          ((1 : ℤ) : ℚ) * (1 / 2))⟩ :=
  ⟨by rfl,
   update_priority_formula.1 sampleSheet "Putaway 3002" 8 9 1 10 0 (by rfl)⟩

/-- C5: when Update finds a matching row (the first match, at logical index
`i`), it returns `true` and issues exactly six cell writes to sheet row
`i + 2`, in order: urgency to column 2, importance to column 3,
daysUntilDue to column 4, the recomputed priority to column 5, quantity to
column 6, and the recomputed peopleNeeded to column 7. -/
theorem update_task_found_writes (sheet : List Record) (t : String)
    (u imp d q : ℤ) (i : ℕ) (r : Record)
    (hr : sheet[i]? = some r) (hm : r.task.eqStr t = true)
    (hfirst : ∀ j, j < i → ∀ r', sheet[j]? = some r' → r'.task.eqStr t = false) :
    update_task sheet t u imp d q =
      (true,
       [⟨i + 2, 2, Cell.num (u : ℚ)⟩,
        ⟨i + 2, 3, Cell.num (imp : ℚ)⟩,
        ⟨i + 2, 4, Cell.num (d : ℚ)⟩,
        ⟨i + 2, 5, Cell.num (priority_formula u imp d)⟩,
        ⟨i + 2, 6, Cell.num (q : ℚ)⟩,
        ⟨i + 2, 7, Cell.num ((calculate_people_needed t q u imp : ℤ) : ℚ)⟩]) :=
  update_task_eq_of_some sheet t u imp d q i
    (findTaskIdx_eq_some sheet t i r hr hm hfirst)

/-- C5 witness: instantiation at the one-row sample store, matching row at
logical index 0 (sheet row 2), urgency 8, importance 9, daysUntilDue 1,
quantity 10. -/
theorem update_task_found_writes_witness :
    sampleSheet[0]? = some sampleRow ∧
    sampleRow.task.eqStr "Putaway 3002" = true ∧
    update_task sampleSheet "Putaway 3002" 8 9 1 10 =
      (true,
       [⟨2, 2, Cell.num ((8 : ℤ) : ℚ)⟩,
        ⟨2, 3, Cell.num ((9 : ℤ) : ℚ)⟩,
        ⟨2, 4, Cell.num ((1 : ℤ) : ℚ)⟩,
        ⟨2, 5, Cell.num (priority_formula 8 9 1)⟩,
        ⟨2, 6, Cell.num ((10 : ℤ) : ℚ)⟩,
        ⟨2, 7, Cell.num ((calculate_people_needed "Putaway 3002" 10 8 9 : ℤ) : ℚ)⟩]) :=
  ⟨by rfl, by rfl,
   update_task_found_writes sampleSheet "Putaway 3002" 8 9 1 10 0 sampleRow
     (by rfl) (by rfl) (fun j hj => absurd hj (Nat.not_lt_zero j))⟩

/-- C6: when no row's name equals the requested task name, Update returns
`false` with no writes, and applying its (empty) write trace leaves every
row of the store unchanged. -/
theorem update_task_not_found (sheet : List Record) (t : String)
    (u imp d q : ℤ) (h : ∀ r ∈ sheet, r.task.eqStr t = false) :
    update_task sheet t u imp d q = (false, []) ∧
    applyWrites sheet (update_task sheet t u imp d q).2 = sheet := by
  have he := update_task_eq_of_none sheet t u imp d q (findTaskIdx_eq_none sheet t h)
  exact ⟨he, by rw [he]; rfl⟩

/-- C6 witness: instantiation at the one-row sample store with a task name
absent from it. -/
theorem update_task_not_found_witness :
    (∀ r ∈ sampleSheet, r.task.eqStr "Unknown Task" = false) ∧
    (update_task sampleSheet "Unknown Task" 8 9 1 10 = (false, []) ∧
     applyWrites sampleSheet (update_task sampleSheet "Unknown Task" 8 9 1 10).2 =
       sampleSheet) :=
  ⟨by decide,
   update_task_not_found sampleSheet "Unknown Task" 8 9 1 10 (by decide)⟩

/-- C7: after Reset, every row of the store — whatever it held before —
has urgency 5, importance 5, daysUntilDue 0, priority 0, quantity 0 and
peopleNeeded 1. -/
theorem reset_tasks_defaults (sheet : List Record) (i : ℕ) (r : Record)
    (h : (applyWrites sheet (reset_tasks sheet))[i]? = some r) :
    r.urgency = Cell.num 5 ∧ r.importance = Cell.num 5 ∧
    r.daysUntilDue = Cell.num 0 ∧ r.priority = Cell.num 0 ∧
    r.quantity = Cell.num 0 ∧ r.peopleNeeded = Cell.num 1 := by
  unfold reset_tasks at h
  rw [applyWrites_reset_blocks_getElem?] at h
  by_cases hi : i ∈ List.range sheet.length
  · rw [if_pos hi, Option.map_eq_some'] at h
    obtain ⟨r0, -, rfl⟩ := h
    exact ⟨rfl, rfl, rfl, rfl, rfl, rfl⟩
  · rw [if_neg hi] at h
    rw [List.mem_range, not_lt] at hi
    rw [List.getElem?_eq_none hi] at h
    exact absurd h (by simp)

/-- C7 witness: instantiation at the one-row sample store, whose row holds
non-default values before the reset. -/
theorem reset_tasks_defaults_witness :
    (applyWrites sampleSheet (reset_tasks sampleSheet))[0]? =
      some { task := Cell.str "Putaway 3002", urgency := Cell.num 5,
             importance := Cell.num 5, daysUntilDue := Cell.num 0,
             priority := Cell.num 0, quantity := Cell.num 0,
             peopleNeeded := Cell.num 1 } ∧
    ((Cell.num 5 : Cell) = Cell.num 5 ∧ (Cell.num 5 : Cell) = Cell.num 5 ∧
     (Cell.num 0 : Cell) = Cell.num 0 ∧ (Cell.num 0 : Cell) = Cell.num 0 ∧
     (Cell.num 0 : Cell) = Cell.num 0 ∧ (Cell.num 1 : Cell) = Cell.num 1) :=
  ⟨by rfl,
   reset_tasks_defaults sampleSheet 0
     { task := Cell.str "Putaway 3002", urgency := Cell.num 5,
       importance := Cell.num 5, daysUntilDue := Cell.num 0,
       priority := Cell.num 0, quantity := Cell.num 0,
       peopleNeeded := Cell.num 1 } (by rfl)⟩

/-- C8 counterexample: Load does not coerce the Urgency and Importance
columns at all — a row whose Urgency cell is the non-numeric string "HIGH"
and whose Importance cell is "LOW" is loaded with those strings intact,
not with any numeric default. -/
theorem load_tasks_urgency_not_coerced :
    ((load_tasks [badRow])[0]?).map Record.urgency = some (Cell.str "HIGH") ∧
    ((load_tasks [badRow])[0]?).map Record.importance = some (Cell.str "LOW") :=
  ⟨rfl, rfl⟩

/-- C8 (amended): Load coerces the Priority, Quantity, Days Until Due and
People Needed columns to numbers, substituting the defaults 0, 0, 0 and 1
respectively when the stored value is non-numeric, instead of propagating a
parse error; the Urgency and Importance columns (and the Task column) are
returned unchanged, without coercion. -/
theorem load_tasks_coerces_numeric_columns (sheet : List Record) (i : ℕ)
    (r : Record) (h : sheet[i]? = some r) :
    (load_tasks sheet)[i]? =
      some { task := r.task, urgency := r.urgency, importance := r.importance,
             daysUntilDue := Cell.num (coerceFill r.daysUntilDue 0),
             priority := Cell.num (coerceFill r.priority 0),
             quantity := Cell.num (coerceFill r.quantity 0),
             peopleNeeded := Cell.num (coerceFill r.peopleNeeded 1) } := by
  unfold load_tasks
  rw [List.getElem?_map, h]
  rfl

/-- C8 witness: instantiation at the all-non-numeric row, where every
coerced column falls back to its default. -/
theorem load_tasks_coerces_numeric_columns_witness :
    ([badRow] : List Record)[0]? = some badRow ∧
    (load_tasks [badRow])[0]? =
      some { task := badRow.task, urgency := badRow.urgency,
             importance := badRow.importance,
             daysUntilDue := Cell.num (coerceFill badRow.daysUntilDue 0),
             priority := Cell.num (coerceFill badRow.priority 0),
             quantity := Cell.num (coerceFill badRow.quantity 0),
             peopleNeeded := Cell.num (coerceFill badRow.peopleNeeded 1) } :=
  ⟨by rfl, load_tasks_coerces_numeric_columns [badRow] 0 badRow (by rfl)⟩

/-- C10: neither Update nor Reset ever writes to column 1, so the Task name
column is unchanged by both operations: after applying either write trace,
the per-row task names are exactly what they were before. -/
theorem task_column_preserved (sheet : List Record) (t : String)
    (u imp d q : ℤ) :
    (applyWrites sheet (update_task sheet t u imp d q).2).map Record.task =
      sheet.map Record.task ∧
    (applyWrites sheet (reset_tasks sheet)).map Record.task =
      sheet.map Record.task :=
  ⟨applyWrites_map_task sheet _ (update_trace_cols sheet t u imp d q),
   applyWrites_map_task sheet _ (reset_trace_cols sheet)⟩
